import Mathlib

/-!
Verification of the ecotrack indicator/scoring core against its specification.

Shallow embedding conventions:
* Python floats are modelled as `ℚ`; a float that may be `None`/`NaN` is an
  `Option ℚ` (`none` covers both missing and NaN, which the source treats
  alike through `pd.isna` / `is not None` / truthiness guards).
* Python dicts with a fixed set of keys become structures whose fields are
  `Option`-valued: `none` models an absent key.
* `f"{x:.1f}"`-style formatting is modelled by `fmtFixed1` (round the scaled
  value to an integer, print sign, integer part and fixed decimals).
* Scores accumulated from integer deltas are `ℤ`; the one quotient
  (`overall_score`) lives in `ℚ`.
-/

/-- Rating labels of `calculate_economic_score` (src/data/te.py). -/
inductive Rating where
  | excellent
  | good
  | fair
  | poor
  | critical
deriving DecidableEq

/-- Risk levels used by the recommendation heuristics (src/analysis/investment.py). -/
inductive RiskLevel where
  | low
  | medium
  | high
deriving DecidableEq

/-- Market-timing labels of `generate_comprehensive_investment_recommendation`. -/
inductive Timing where
  | favorable
  | neutral
  | unfavorable
deriving DecidableEq

/-- Sentiment labels of `get_market_sentiment` (src/analysis/indicators.py). -/
inductive Sentiment where
  | unknown
  | overbought
  | oversold
  | neutral
deriving DecidableEq

/-- Sentiment tone of `get_market_sentiment`. -/
inductive Tone where
  | positive
  | negative
  | neutral
deriving DecidableEq

/-- Model of Python `f"{q:.1f}"` on an exact rational. -/
def fmtFixed1 (q : ℚ) : String :=
  let n : ℤ := round (q * 10)
  let sign := if n < 0 then "-" else ""
  let m := n.natAbs
  sign ++ toString (m / 10) ++ "." ++ toString (m % 10)

/-- Model of Python `f"{q:.2f}"` on an exact rational. -/
def fmtFixed2 (q : ℚ) : String :=
  let n : ℤ := round (q * 100)
  let sign := if n < 0 then "-" else ""
  let m := n.natAbs
  sign ++ toString (m / 100) ++ "." ++ toString (m % 100 / 10) ++ toString (m % 10)

/-- Model of Python `f"{q:.0f}"` on an exact rational. -/
def fmtFixed0 (q : ℚ) : String :=
  let n : ℤ := round q
  let sign := if n < 0 then "-" else ""
  sign ++ toString n.natAbs

/-- One entry of a macro `IndicatorSnapshot`: the `"value"` and `"change"`
fields of the per-indicator dict (each possibly `None`). -/
structure IndicatorEntry where
  value : Option ℚ
  change : Option ℚ
deriving DecidableEq

/-- A macro indicator snapshot (`vn_data : Dict[str, Dict]` in te.py,
`vn_economic` in investment.py): the six indicator keys the scoring code
reads, `none` when the key is absent from the dict. -/
structure Snapshot where
  gdp_growth_yoy : Option IndicatorEntry
  inflation_rate : Option IndicatorEntry
  manufacturing_pmi : Option IndicatorEntry
  balance_of_trade : Option IndicatorEntry
  fx_reserves : Option IndicatorEntry
  policy_rate : Option IndicatorEntry
deriving DecidableEq

/-- The snapshot with every indicator key absent. -/
def emptySnapshot : Snapshot :=
  ⟨none, none, none, none, none, none⟩

/-- GDP block of `calculate_economic_score` (te.py lines 222-233):
score delta and appended factor strings. -/
def gdpStep : Option IndicatorEntry → ℤ × List String
  | none => (0, [])
  | some e =>
    match e.value with
    | none => (0, [])
    | some gdp_growth =>
      if gdp_growth > 6.5 then
        (15, ["🟢 Strong GDP growth (" ++ fmtFixed1 gdp_growth ++ "%)"])
      else if gdp_growth > 5.0 then
        (10, ["🟡 Moderate GDP growth (" ++ fmtFixed1 gdp_growth ++ "%)"])
      else
        (-10, ["🔴 Slow GDP growth (" ++ fmtFixed1 gdp_growth ++ "%)"])

/-- Inflation block of `calculate_economic_score` (te.py lines 236-246). -/
def inflationStep : Option IndicatorEntry → ℤ × List String
  | none => (0, [])
  | some e =>
    match e.value with
    | none => (0, [])
    | some inflation =>
      if 2 ≤ inflation ∧ inflation ≤ 4 then
        (12, ["🟢 Healthy inflation (" ++ fmtFixed1 inflation ++ "%)"])
      else if inflation < 2 ∨ inflation > 6 then
        (-8, ["🔴 Concerning inflation (" ++ fmtFixed1 inflation ++ "%)"])
      else
        (5, ["🟡 Elevated inflation (" ++ fmtFixed1 inflation ++ "%)"])

/-- Manufacturing PMI block of `calculate_economic_score` (te.py lines 249-259). -/
def pmiStep : Option IndicatorEntry → ℤ × List String
  | none => (0, [])
  | some e =>
    match e.value with
    | none => (0, [])
    | some pmi =>
      if pmi > 52 then
        (10, ["🟢 Expanding manufacturing (PMI: " ++ fmtFixed1 pmi ++ ")"])
      else if pmi > 50 then
        (5, ["🟡 Slight expansion (PMI: " ++ fmtFixed1 pmi ++ ")"])
      else
        (-8, ["🔴 Contracting manufacturing (PMI: " ++ fmtFixed1 pmi ++ ")"])

/-- Trade balance block of `calculate_economic_score` (te.py lines 262-272). -/
def tradeStep : Option IndicatorEntry → ℤ × List String
  | none => (0, [])
  | some e =>
    match e.value with
    | none => (0, [])
    | some trade_balance =>
      if trade_balance > 1 then
        (8, ["🟢 Trade surplus ($" ++ fmtFixed1 trade_balance ++ "B)"])
      else if trade_balance > -1 then
        (3, ["🟡 Balanced trade ($" ++ fmtFixed1 trade_balance ++ "B)"])
      else
        (-5, ["🔴 Trade deficit ($" ++ fmtFixed1 trade_balance ++ "B)"])

/-- FX reserves block of `calculate_economic_score` (te.py lines 275-283);
only the `> 100` branch emits a factor string. -/
def fxStep : Option IndicatorEntry → ℤ × List String
  | none => (0, [])
  | some e =>
    match e.value with
    | none => (0, [])
    | some fx_reserves =>
      if fx_reserves > 100 then
        (7, ["🟢 Strong FX reserves ($" ++ fmtFixed0 fx_reserves ++ "B)"])
      else if fx_reserves > 80 then
        (3, [])
      else
        (-3, [])

/-- Policy rate block of `calculate_economic_score` (te.py lines 286-298):
requires the value present and the `"change"` field non-`None`. -/
def policyStep : Option IndicatorEntry → ℤ × List String
  | none => (0, [])
  | some e =>
    match e.value with
    | none => (0, [])
    | some policy_rate =>
      match e.change with
      | none => (0, [])
      | some change =>
        if change < -0.25 then
          (8, ["🟢 Accommodative policy (Rate: " ++ fmtFixed2 policy_rate ++ "%, ↓)"])
        else if change > 0.25 then
          (-5, ["🔴 Tightening policy (Rate: " ++ fmtFixed2 policy_rate ++ "%, ↑)"])
        else
          (3, ["🟡 Stable policy (Rate: " ++ fmtFixed2 policy_rate ++ "%)"])

/-- Rating thresholds of `calculate_economic_score` (te.py lines 304-313). -/
def ratingOf (score : ℤ) : Rating :=
  if score ≥ 75 then .excellent
  else if score ≥ 60 then .good
  else if score ≥ 45 then .fair
  else if score ≥ 30 then .poor
  else .critical

/-- `calculate_economic_score` (src/data/te.py lines 214-315): composite
economic health score. Score starts at 50, each indicator block adds its
delta and appends its factor strings in source order, the score is clamped
to [0,100] and mapped to a rating. -/
def calculate_economic_score (vn_data : Snapshot) : ℤ × Rating × List String :=
  let g := gdpStep vn_data.gdp_growth_yoy
  let i := inflationStep vn_data.inflation_rate
  let p := pmiStep vn_data.manufacturing_pmi
  let t := tradeStep vn_data.balance_of_trade
  let x := fxStep vn_data.fx_reserves
  let r := policyStep vn_data.policy_rate
  let score := max 0 (min 100 (50 + g.1 + i.1 + p.1 + t.1 + x.1 + r.1))
  (score, ratingOf score, g.2 ++ i.2 ++ p.2 ++ t.2 ++ x.2 ++ r.2)

/-- The `"value"` field of an indicator entry, `none` when the key is absent. -/
def valueOf : Option IndicatorEntry → Option ℚ
  | none => none
  | some e => e.value

/-- The `"change"` field of an indicator entry, `none` when the key is absent. -/
def changeOf : Option IndicatorEntry → Option ℚ
  | none => none
  | some e => e.change

/-- Spec reference rule (section 4.2): GDP growth YoY delta. -/
def specGdpDelta : Option ℚ → ℤ
  | none => 0
  | some v => if v > 6.5 then 15 else if v > 5.0 then 10 else -10

/-- Spec reference rule (section 4.2): inflation delta. -/
def specInflationDelta : Option ℚ → ℤ
  | none => 0
  | some v => if 2 ≤ v ∧ v ≤ 4 then 12 else if v < 2 ∨ v > 6 then -8 else 5

/-- Spec reference rule (section 4.2): manufacturing PMI delta. -/
def specPmiDelta : Option ℚ → ℤ
  | none => 0
  | some v => if v > 52 then 10 else if v > 50 then 5 else -8

/-- Spec reference rule (section 4.2): trade balance delta. -/
def specTradeDelta : Option ℚ → ℤ
  | none => 0
  | some v => if v > 1 then 8 else if v > -1 then 3 else -5

/-- Spec reference rule (section 4.2): FX reserves delta. -/
def specFxDelta : Option ℚ → ℤ
  | none => 0
  | some v => if v > 100 then 7 else if v > 80 then 3 else -3

/-- Spec reference rule (section 4.2): policy rate trend delta (requires the
indicator's value and its `change` field to be present). -/
def specPolicyDelta : Option ℚ → Option ℚ → ℤ
  | some _, some c => if c < -0.25 then 8 else if c > 0.25 then -5 else 3
  | _, _ => 0

/-- Spec reference score (section 4.2): base 50 plus the per-indicator
deltas, clamped to [0,100]. -/
def specEconScore (s : Snapshot) : ℤ :=
  max 0 (min 100 (50 + specGdpDelta (valueOf s.gdp_growth_yoy)
    + specInflationDelta (valueOf s.inflation_rate)
    + specPmiDelta (valueOf s.manufacturing_pmi)
    + specTradeDelta (valueOf s.balance_of_trade)
    + specFxDelta (valueOf s.fx_reserves)
    + specPolicyDelta (valueOf s.policy_rate) (changeOf s.policy_rate)))

/-- Spec reference rating thresholds (section 4.2). -/
def specRating (score : ℤ) : Rating :=
  if score ≥ 75 then .excellent
  else if score ≥ 60 then .good
  else if score ≥ 45 then .fair
  else if score ≥ 30 then .poor
  else .critical

/-- Period-over-period differences (`prices.diff()` without its leading NaN):
entry `i` is `close[i+1] - close[i]`. -/
def priceDiffs : List ℚ → List ℚ
  | [] => []
  | [_] => []
  | a :: b :: rest => (b - a) :: priceDiffs (b :: rest)

/-- `gain = delta.clip(lower=0)` over the defined deltas. -/
def gainsOf (prices : List ℚ) : List ℚ :=
  (priceDiffs prices).map (fun d => max d 0)

/-- `loss = -delta.clip(upper=0)` over the defined deltas. -/
def lossesOf (prices : List ℚ) : List ℚ :=
  (priceDiffs prices).map (fun d => max (-d) 0)

/-- The tail of `ewm(alpha, adjust=False).mean()`: recurrence
`y = alpha*x + (1-alpha)*acc` started from accumulator `acc`. -/
def ewmFrom (alpha acc : ℚ) : List ℚ → List ℚ
  | [] => []
  | x :: xs => (alpha * x + (1 - alpha) * acc) :: ewmFrom alpha (alpha * x + (1 - alpha) * acc) xs

/-- `ewm(alpha, adjust=False).mean()` seeded at the first value (Wilder's
convention, as pandas does when the leading entry of the series is the first
non-NaN one). -/
def ewmWilder (alpha : ℚ) : List ℚ → List ℚ
  | [] => []
  | x :: xs => x :: ewmFrom alpha x xs

/-- The smoothed average-gain series of `calculate_rsi`
(`gain.ewm(alpha=1/period, adjust=False).mean()`, defined part). -/
def avgGainSeq (prices : List ℚ) (period : ℕ) : List ℚ :=
  ewmWilder (1 / period) (gainsOf prices)

/-- The smoothed average-loss series of `calculate_rsi`
(`loss.ewm(alpha=1/period, adjust=False).mean()`, defined part). -/
def avgLossSeq (prices : List ℚ) (period : ℕ) : List ℚ :=
  ewmWilder (1 / period) (lossesOf prices)

/-- One RSI sample: `rs = avg_gain / avg_loss.replace(0, nan)` followed by
`rsi = 100 - 100/(1+rs)`; a zero average loss yields NaN (`none`). -/
def rsiPoint (g l : ℚ) : Option ℚ :=
  if l = 0 then none else some (100 - 100 / (1 + g / l))

/-- `calculate_rsi` (src/analysis/indicators.py lines 26-35): Wilder's RSI
with EMA smoothing. The leading entry is `none` (the NaN produced by
`prices.diff()` propagates through `ewm` and the division); every later
entry pairs the smoothed gain and loss through `rsiPoint`. -/
def calculate_rsi (prices : List ℚ) (period : ℕ) : List (Option ℚ) :=
  match prices with
  | [] => []
  | _ :: _ => none :: List.zipWith rsiPoint (avgGainSeq prices period) (avgLossSeq prices period)

/-- `get_market_sentiment` (src/analysis/indicators.py lines 38-45); `none`
models both a `None` and a NaN RSI input. -/
def get_market_sentiment : Option ℚ → Sentiment × Tone
  | none => (.unknown, .neutral)
  | some rsi_value =>
    if rsi_value > 70 then (.overbought, .negative)
    else if rsi_value < 30 then (.oversold, .positive)
    else (.neutral, .neutral)

/-- The `"fed_rate"` entry of `us_data`: the source indexes `["value"]`
directly; `"mom_change"` is read behind a key-presence + truthiness guard. -/
structure FedRateEntry where
  value : ℚ
  mom_change : Option ℚ
deriving DecidableEq

/-- The keys of `us_data` read by `analyze_fed_vietnam_correlation`; for
`"inflation"` only the directly-indexed `["value"]` is read, inlined here. -/
structure USData where
  fed_rate : Option FedRateEntry
  inflation : Option ℚ
deriving DecidableEq

/-- `vn_data["indices"]["vnindex"]`: the fields the heuristics read. -/
structure VnIndexData where
  name : String
  rsi : Option ℚ
deriving DecidableEq

/-- The parts of `vn_market` the heuristics read. `vnindex` is `some` when
`"indices"` holds a `"vnindex"` entry. `advance_decline_ratio` collapses the
`"vn30_analysis"` dict and its `"advance_decline_ratio"` key: the source
skips identically when either level is absent/falsy. -/
structure VnMarket where
  vnindex : Option VnIndexData
  advance_decline_ratio : Option ℚ
deriving DecidableEq

/-- The `"change"` fields of `global_context["dxy"]` / `["usd_vnd"]`; `none`
collapses "key absent" and "`change` absent or None", which the source skips
identically; the truthiness guard on 0.0 is kept explicit in the steps. -/
structure GlobalContext where
  dxy_change : Option ℚ
  usd_vnd_change : Option ℚ
deriving DecidableEq

/-- Result record of `analyze_fed_vietnam_correlation`. -/
structure FedAnalysis where
  fed_impact_score : ℤ
  key_factors : List String
  recommendations : List String
  risk_level : RiskLevel
deriving DecidableEq

/-- Result record of `analyze_vietnam_macro_market_correlation`; the
`sector_rotation` dict becomes one `Option` field per category key. -/
structure MacroAnalysis where
  macro_score : ℤ
  economic_drivers : List String
  market_implications : List String
  growth_favored : Option (List String)
  defensive_favored : Option (List String)
  inflation_hedge : Option (List String)
  manufacturing_cycle : Option (List String)
  export_beneficiary : Option (List String)
  rate_sensitive : Option (List String)
deriving DecidableEq

/-- Fed funds rate block of `analyze_fed_vietnam_correlation`
(investment.py lines 19-39), acting on (score, key_factors, risk_level). -/
def fedRateStep (fr : Option FedRateEntry) (st : ℤ × List String × RiskLevel) :
    ℤ × List String × RiskLevel :=
  match fr with
  | none => st
  | some e =>
    let st1 :=
      if e.value > 5.0 then
        (st.1 - 30,
         st.2.1 ++ ["🔴 High Fed rate (" ++ fmtFixed2 e.value ++ "%) pressures emerging markets"],
         RiskLevel.high)
      else if e.value < 2.0 then
        (st.1 + 20,
         st.2.1 ++ ["🟢 Low Fed rate (" ++ fmtFixed2 e.value ++ "%) supports EM flows"],
         st.2.2)
      else st
    match e.mom_change with
    | none => st1
    | some mom_change =>
      if mom_change ≠ 0 then
        if mom_change > 0.1 then
          (st1.1 - 15, st1.2.1 ++ ["🔴 Rising US rates create headwinds"], st1.2.2)
        else if mom_change < -0.1 then
          (st1.1 + 15, st1.2.1 ++ ["🟢 Falling US rates support EM"], st1.2.2)
        else st1
      else st1

/-- US inflation block of `analyze_fed_vietnam_correlation`
(investment.py lines 42-50). -/
def usInflationStep (infl : Option ℚ) (st : ℤ × List String × RiskLevel) :
    ℤ × List String × RiskLevel :=
  match infl with
  | none => st
  | some inflation =>
    if inflation > 4.0 then
      (st.1 - 20,
       st.2.1 ++ ["🔴 High US inflation (" ++ fmtFixed1 inflation ++ "%) may force Fed hawkishness"],
       st.2.2)
    else if inflation < 2.5 then
      (st.1 + 15,
       st.2.1 ++ ["🟢 Moderate US inflation (" ++ fmtFixed1 inflation ++ "%) allows Fed flexibility"],
       st.2.2)
    else st

/-- Dollar strength block of `analyze_fed_vietnam_correlation`
(investment.py lines 53-61), with the `if dxy_change:` truthiness guard. -/
def dxyStep (dxy_change : Option ℚ) (st : ℤ × List String × RiskLevel) :
    ℤ × List String × RiskLevel :=
  match dxy_change with
  | none => st
  | some c =>
    if c ≠ 0 then
      if c > 2 then
        (st.1 - 25, st.2.1 ++ ["🔴 Strong USD creates EM outflows"], st.2.2)
      else if c < -2 then
        (st.1 + 20, st.2.1 ++ ["🟢 Weak USD supports EM inflows"], st.2.2)
      else st
    else st

/-- Vietnam market technicals block of `analyze_fed_vietnam_correlation`
(investment.py lines 64-73), with the `if vni.get("rsi"):` truthiness guard. -/
def vnRsiStep (vni : Option VnIndexData) (st : ℤ × List String × RiskLevel) :
    ℤ × List String × RiskLevel :=
  match vni with
  | none => st
  | some v =>
    match v.rsi with
    | none => st
    | some rsi =>
      if rsi ≠ 0 then
        if rsi < 35 then
          (st.1 + 10, st.2.1 ++ ["🟢 VN-Index oversold, potential reversal"], st.2.2)
        else if rsi > 65 then
          (st.1 - 10, st.2.1 ++ ["🔴 VN-Index overbought, vulnerable to correction"], st.2.2)
        else st
      else st

/-- Recommendation block of `analyze_fed_vietnam_correlation`
(investment.py lines 76-95): appends recommendations and overrides the risk
level from the accumulated score. -/
def fedFinalize (st : ℤ × List String × RiskLevel) : FedAnalysis :=
  if st.1 > 20 then
    ⟨st.1, st.2.1,
     ["🟢 Favorable Fed environment for Vietnam exposure",
      "💡 Consider increasing Vietnam allocation",
      "📈 Focus on growth sectors (Tech, Consumer)"], .low⟩
  else if st.1 < -20 then
    ⟨st.1, st.2.1,
     ["🔴 Challenging Fed environment for Vietnam",
      "⚖️ Reduce Vietnam exposure or hedge currency risk",
      "🛡️ Focus on defensive sectors (Utilities, Consumer Staples)"], .high⟩
  else
    ⟨st.1, st.2.1,
     ["🟡 Mixed Fed signals - cautious approach",
      "📊 Monitor Fed communications closely",
      "⚖️ Maintain balanced sector allocation"], st.2.2⟩

/-- `analyze_fed_vietnam_correlation` (src/analysis/investment.py lines 8-97). -/
def analyze_fed_vietnam_correlation (us_data : USData) (vn_data : VnMarket)
    (global_context : GlobalContext) : FedAnalysis :=
  fedFinalize (vnRsiStep vn_data.vnindex
    (dxyStep global_context.dxy_change
      (usInflationStep us_data.inflation
        (fedRateStep us_data.fed_rate (0, [], .medium)))))

/-- GDP block of `analyze_vietnam_macro_market_correlation`
(investment.py lines 112-123), with the `if gdp_growth:` truthiness guard. -/
def macroGdpStep (f : Option IndicatorEntry) (a : MacroAnalysis) : MacroAnalysis :=
  match f with
  | none => a
  | some e =>
    match e.value with
    | none => a
    | some gdp_growth =>
      if gdp_growth ≠ 0 then
        if gdp_growth > 6.5 then
          { a with macro_score := a.macro_score + 15,
                   economic_drivers := a.economic_drivers ++
                     ["🟢 Strong GDP growth (" ++ fmtFixed1 gdp_growth ++ "%)"],
                   growth_favored := some ["Technology", "Real Estate", "Manufacturing"] }
        else if gdp_growth < 5.0 then
          { a with macro_score := a.macro_score - 10,
                   economic_drivers := a.economic_drivers ++
                     ["🔴 Slow GDP growth (" ++ fmtFixed1 gdp_growth ++ "%)"],
                   defensive_favored := some ["Banking", "Utilities"] }
        else a
      else a

/-- Inflation block of `analyze_vietnam_macro_market_correlation`
(investment.py lines 126-136), with the `if inflation:` truthiness guard. -/
def macroInflationStep (f : Option IndicatorEntry) (a : MacroAnalysis) : MacroAnalysis :=
  match f with
  | none => a
  | some e =>
    match e.value with
    | none => a
    | some inflation =>
      if inflation ≠ 0 then
        if 2 ≤ inflation ∧ inflation ≤ 4 then
          { a with macro_score := a.macro_score + 10,
                   economic_drivers := a.economic_drivers ++
                     ["🟢 Healthy inflation (" ++ fmtFixed1 inflation ++ "%)"] }
        else if inflation > 5 then
          { a with macro_score := a.macro_score - 15,
                   economic_drivers := a.economic_drivers ++
                     ["🔴 High inflation (" ++ fmtFixed1 inflation ++ "%)"],
                   inflation_hedge := some ["Real Estate", "Energy", "Manufacturing"] }
        else a
      else a

/-- Manufacturing PMI block of `analyze_vietnam_macro_market_correlation`
(investment.py lines 139-149), with the `if pmi:` truthiness guard. -/
def macroPmiStep (f : Option IndicatorEntry) (a : MacroAnalysis) : MacroAnalysis :=
  match f with
  | none => a
  | some e =>
    match e.value with
    | none => a
    | some pmi =>
      if pmi ≠ 0 then
        if pmi > 52 then
          { a with macro_score := a.macro_score + 12,
                   economic_drivers := a.economic_drivers ++
                     ["🟢 Expanding manufacturing (PMI: " ++ fmtFixed1 pmi ++ ")"],
                   manufacturing_cycle := some ["Manufacturing", "Technology", "Energy"] }
        else if pmi < 50 then
          { a with macro_score := a.macro_score - 12,
                   economic_drivers := a.economic_drivers ++
                     ["🔴 Contracting manufacturing (PMI: " ++ fmtFixed1 pmi ++ ")"] }
        else a
      else a

/-- Trade balance block of `analyze_vietnam_macro_market_correlation`
(investment.py lines 152-162), with the `if trade_balance:` truthiness guard. -/
def macroTradeStep (f : Option IndicatorEntry) (a : MacroAnalysis) : MacroAnalysis :=
  match f with
  | none => a
  | some e =>
    match e.value with
    | none => a
    | some trade_balance =>
      if trade_balance ≠ 0 then
        if trade_balance > 2 then
          { a with macro_score := a.macro_score + 8,
                   economic_drivers := a.economic_drivers ++
                     ["🟢 Strong trade surplus ($" ++ fmtFixed1 trade_balance ++ "B)"],
                   export_beneficiary := some ["Manufacturing", "Technology"] }
        else if trade_balance < -1 then
          { a with macro_score := a.macro_score - 8,
                   economic_drivers := a.economic_drivers ++
                     ["🔴 Trade deficit ($" ++ fmtFixed1 trade_balance ++ "B)"] }
        else a
      else a

/-- Policy rate block of `analyze_vietnam_macro_market_correlation`
(investment.py lines 165-177): `if policy_rate and policy_change:` requires
both fields present and truthy (nonzero). -/
def macroPolicyStep (f : Option IndicatorEntry) (a : MacroAnalysis) : MacroAnalysis :=
  match f with
  | none => a
  | some e =>
    match e.value, e.change with
    | some policy_rate, some policy_change =>
      if policy_rate ≠ 0 ∧ policy_change ≠ 0 then
        if policy_change < -0.25 then
          { a with macro_score := a.macro_score + 10,
                   economic_drivers := a.economic_drivers ++
                     ["🟢 Accommodative policy (Rate: " ++ fmtFixed2 policy_rate ++ "% ↓)"],
                   rate_sensitive := some ["Real Estate", "Banking", "Technology"] }
        else if policy_change > 0.25 then
          { a with macro_score := a.macro_score - 8,
                   economic_drivers := a.economic_drivers ++
                     ["🔴 Tightening policy (Rate: " ++ fmtFixed2 policy_rate ++ "% ↑)"] }
        else a
      else a
    | _, _ => a

/-- Market-implications block of `analyze_vietnam_macro_market_correlation`
(investment.py lines 180-197). -/
def macroImplications (a : MacroAnalysis) : MacroAnalysis :=
  if a.macro_score > 70 then
    { a with market_implications := a.market_implications ++
        ["🚀 Strong macro environment supports risk-on approach",
         "📈 Favor cyclical and growth sectors",
         "💰 Consider increasing Vietnam allocation"] }
  else if a.macro_score < 40 then
    { a with market_implications := a.market_implications ++
        ["⚠️ Weak macro environment suggests caution",
         "🛡️ Favor defensive sectors and quality names",
         "💱 Consider currency hedging"] }
  else
    { a with market_implications := a.market_implications ++
        ["⚖️ Mixed macro signals require selective approach",
         "📊 Focus on bottom-up stock selection",
         "🎯 Maintain sector diversification"] }

/-- `analyze_vietnam_macro_market_correlation` (src/analysis/investment.py
lines 100-199). The `vn_market` parameter is accepted but never read by the
source body. -/
def analyze_vietnam_macro_market_correlation (vn_economic : Snapshot)
    (_vn_market : VnMarket) : MacroAnalysis :=
  macroImplications
    (macroPolicyStep vn_economic.policy_rate
      (macroTradeStep vn_economic.balance_of_trade
        (macroPmiStep vn_economic.manufacturing_pmi
          (macroInflationStep vn_economic.inflation_rate
            (macroGdpStep vn_economic.gdp_growth_yoy
              ⟨50, [], [], none, none, none, none, none, none⟩)))))

/-- The `risk_tolerance` selector of
`generate_comprehensive_investment_recommendation`. -/
inductive RiskTolerance where
  | conservative
  | moderate
  | aggressive
deriving DecidableEq

/-- Python `round(x, 1)`. The source only ever rounds halves of integers
(`(int + 50 + int) / 2`), where this model agrees exactly with Python's
banker's rounding. -/
def round1 (q : ℚ) : ℚ :=
  (round (q * 10) : ℚ) / 10

/-- String form of a `Timing` label, as interpolated by the source. -/
def timingText : Timing → String
  | .favorable => "Favorable"
  | .neutral => "Neutral"
  | .unfavorable => "Unfavorable"

/-- `risk_level.lower()` as interpolated into the summary string. -/
def riskLowerText : RiskLevel → String
  | .low => "low"
  | .medium => "medium"
  | .high => "high"

/-- Result record of `generate_comprehensive_investment_recommendation`. -/
structure Recommendation where
  overall_score : ℚ
  market_timing : Timing
  risk_level : RiskLevel
  key_recommendations : List String
  opportunities : List String
  risk_factors : List String
  currency_considerations : List String
  fed_analysis : FedAnalysis
  macro_analysis : MacroAnalysis
  summary : String
deriving DecidableEq

/-- `generate_comprehensive_investment_recommendation`
(src/analysis/investment.py lines 202-320). -/
def generate_comprehensive_investment_recommendation (us_data : USData)
    (vn_economic : Snapshot) (vn_market : VnMarket) (global_context : GlobalContext)
    (risk_tolerance : RiskTolerance) : Recommendation :=
  let fed_analysis := analyze_fed_vietnam_correlation us_data vn_market global_context
  let macro_analysis := analyze_vietnam_macro_market_correlation vn_economic vn_market
  let overall_score : ℚ := (fed_analysis.fed_impact_score + 50 + macro_analysis.macro_score) / 2
  -- market timing assessment (the tupled assignment of the source is split
  -- into its two components, branch for branch)
  let market_timing :=
    if overall_score > 65 then Timing.favorable
    else if overall_score < 40 then Timing.unfavorable
    else Timing.neutral
  let recommendations : List String :=
    if overall_score > 65 then ["🟢 Market conditions favor Vietnam exposure"]
    else if overall_score < 40 then ["🔴 Exercise caution with Vietnam exposure"]
    else []
  -- technical analysis integration (only the "vnindex" entry is acted on),
  -- with the `if rsi:` truthiness guard; the two appended lists are built
  -- componentwise
  let rsiOpps : List String :=
    match vn_market.vnindex with
    | none => []
    | some vni =>
      match vni.rsi with
      | none => []
      | some rsi =>
        if rsi ≠ 0 then
          if rsi < 30 then
            ["📉 " ++ vni.name ++ " oversold (RSI: " ++ fmtFixed1 rsi ++ ") - potential entry point"]
          else []
        else []
  let rsiRisks : List String :=
    match vn_market.vnindex with
    | none => []
    | some vni =>
      match vni.rsi with
      | none => []
      | some rsi =>
        if rsi ≠ 0 then
          if rsi < 30 then []
          else if rsi > 70 then
            ["📈 " ++ vni.name ++ " overbought (RSI: " ++ fmtFixed1 rsi ++ ") - potential correction ahead"]
          else []
        else []
  -- sector rotation recommendations: of the inserted categories only
  -- growth_favored / defensive_favored (gdp block, mutually exclusive) and
  -- inflation_hedge (inflation block) are handled, in insertion order
  let sector_recs :=
    (match macro_analysis.growth_favored with
     | some sectors => ["🚀 Growth environment favors: " ++ String.intercalate ", " sectors]
     | none => []) ++
    (match macro_analysis.defensive_favored with
     | some sectors => ["🛡️ Defensive positioning: " ++ String.intercalate ", " sectors]
     | none => []) ++
    (match macro_analysis.inflation_hedge with
     | some sectors => ["🔥 Inflation hedge plays: " ++ String.intercalate ", " sectors]
     | none => [])
  -- VN30 breadth, with the `if vn30.get("advance_decline_ratio"):` guard,
  -- built componentwise
  let adOpps : List String :=
    match vn_market.advance_decline_ratio with
    | none => []
    | some ad =>
      if ad ≠ 0 then
        if ad > 2 then ["🟢 VN30 shows strong breadth - broad-based rally"]
        else []
      else []
  let adRisks : List String :=
    match vn_market.advance_decline_ratio with
    | none => []
    | some ad =>
      if ad ≠ 0 then
        if ad > 2 then []
        else if ad < 0.5 then ["🔴 VN30 shows weak breadth - selective selling"]
        else []
      else []
  -- risk-adjusted allocation recommendations
  let allocation_recs :=
    match risk_tolerance with
    | .conservative =>
      if overall_score > 60 then
        ["💰 Consider 10-15% Vietnam allocation via dividend-focused stocks",
         "🏦 Favor Banking and Utilities sectors"]
      else
        ["💰 Limit Vietnam to 5-8% allocation",
         "🛡️ Focus on large-cap, established names only"]
    | .moderate =>
      if overall_score > 55 then
        ["⚖️ Consider 15-25% Vietnam allocation",
         "📊 Balanced sector approach with growth tilt"]
      else
        ["⚖️ Maintain 10-15% Vietnam allocation",
         "🎯 Focus on quality names and avoid speculative plays"]
    | .aggressive =>
      if overall_score > 50 then
        ["🚀 Consider 25-35% Vietnam allocation",
         "📈 Favor growth sectors and small-mid caps"]
      else
        ["🚀 Consider 15-20% Vietnam allocation",
         "⚖️ Balance growth plays with some defensive positions"]
  -- currency considerations, with the `if usd_vnd_change:` truthiness guard
  let currency_recs :=
    match global_context.usd_vnd_change with
    | none => []
    | some usd_vnd_change =>
      if usd_vnd_change ≠ 0 then
        if |usd_vnd_change| > 3 then
          ["💱 Consider currency hedging for large positions"]
        else if usd_vnd_change < -2 then
          ["🟢 VND strength provides tailwind for USD investors"]
        else []
      else []
  -- final risk assessment
  let risk_level :=
    if fed_analysis.risk_level = .high ∨ macro_analysis.macro_score < 40 then
      RiskLevel.high
    else if fed_analysis.risk_level = .low ∧ macro_analysis.macro_score > 70 then
      RiskLevel.low
    else RiskLevel.medium
  { overall_score := round1 overall_score
    market_timing := market_timing
    risk_level := risk_level
    key_recommendations := recommendations ++ sector_recs ++ allocation_recs
    opportunities := rsiOpps ++ adOpps
    risk_factors := rsiRisks ++ adRisks
    currency_considerations := currency_recs
    fed_analysis := fed_analysis
    macro_analysis := macro_analysis
    summary := "Overall market score: " ++ fmtFixed1 overall_score ++ "/100. " ++
      timingText market_timing ++ " timing with " ++ riskLowerText risk_level ++
      " risk level." }

lemma gdp_delta_eq (f : Option IndicatorEntry) :
    (gdpStep f).1 = specGdpDelta (valueOf f) := by
  rcases f with _ | ⟨v, c⟩
  · rfl
  · rcases v with _ | x
    · rfl
    · simp only [gdpStep, specGdpDelta, valueOf]
      split_ifs <;> rfl

lemma inflation_delta_eq (f : Option IndicatorEntry) :
    (inflationStep f).1 = specInflationDelta (valueOf f) := by
  rcases f with _ | ⟨v, c⟩
  · rfl
  · rcases v with _ | x
    · rfl
    · simp only [inflationStep, specInflationDelta, valueOf]
      split_ifs <;> rfl

lemma pmi_delta_eq (f : Option IndicatorEntry) :
    (pmiStep f).1 = specPmiDelta (valueOf f) := by
  rcases f with _ | ⟨v, c⟩
  · rfl
  · rcases v with _ | x
    · rfl
    · simp only [pmiStep, specPmiDelta, valueOf]
      split_ifs <;> rfl

lemma trade_delta_eq (f : Option IndicatorEntry) :
    (tradeStep f).1 = specTradeDelta (valueOf f) := by
  rcases f with _ | ⟨v, c⟩
  · rfl
  · rcases v with _ | x
    · rfl
    · simp only [tradeStep, specTradeDelta, valueOf]
      split_ifs <;> rfl

lemma fx_delta_eq (f : Option IndicatorEntry) :
    (fxStep f).1 = specFxDelta (valueOf f) := by
  rcases f with _ | ⟨v, c⟩
  · rfl
  · rcases v with _ | x
    · rfl
    · simp only [fxStep, specFxDelta, valueOf]
      split_ifs <;> rfl

lemma policy_delta_eq (f : Option IndicatorEntry) :
    (policyStep f).1 = specPolicyDelta (valueOf f) (changeOf f) := by
  rcases f with _ | ⟨v, c⟩
  · rfl
  · rcases v with _ | x
    · rfl
    · rcases c with _ | y
      · rfl
      · simp only [policyStep, specPolicyDelta, valueOf, changeOf]
        split_ifs <;> rfl

lemma econ_score_eq_spec (s : Snapshot) :
    (calculate_economic_score s).1 = specEconScore s := by
  show max 0 (min 100 (50 + (gdpStep s.gdp_growth_yoy).1
    + (inflationStep s.inflation_rate).1 + (pmiStep s.manufacturing_pmi).1
    + (tradeStep s.balance_of_trade).1 + (fxStep s.fx_reserves).1
    + (policyStep s.policy_rate).1)) = specEconScore s
  rw [gdp_delta_eq, inflation_delta_eq, pmi_delta_eq, trade_delta_eq,
    fx_delta_eq, policy_delta_eq]
  rfl

lemma fmtFixed1_seven : fmtFixed1 (7 : ℚ) = "7.0" := by
  have h70 : round ((7 : ℚ) * 10) = 70 := by
    rw [round_eq]; norm_num
  simp [fmtFixed1, h70]
  decide

/-- C1: `calculate_economic_score` realises exactly the spec's reference
rule table of section 4.2: for every snapshot its score is the clamped base-50
sum of the spec's per-indicator branch deltas and its rating follows the spec
thresholds; and on the snapshot holding only `gdp_growth_yoy = 7.0` it
returns exactly `(65, "Good", ["🟢 Strong GDP growth (7.0%)"])`. -/
theorem econ_score_matches_spec_table :
    (∀ s : Snapshot, (calculate_economic_score s).1 = specEconScore s ∧
      (calculate_economic_score s).2.1 = specRating (specEconScore s)) ∧
    calculate_economic_score ⟨some ⟨some 7, none⟩, none, none, none, none, none⟩ =
      (65, Rating.good, ["🟢 Strong GDP growth (7.0%)"]) := by
  constructor
  · intro s
    refine ⟨econ_score_eq_spec s, ?_⟩
    show ratingOf (calculate_economic_score s).1 = specRating (specEconScore s)
    rw [econ_score_eq_spec s]
    rfl
  · norm_num [calculate_economic_score, gdpStep, inflationStep, pmiStep,
      tradeStep, fxStep, policyStep, ratingOf, fmtFixed1_seven]
    decide

/-- The number of indicator keys present in a snapshot. -/
def presentCount (s : Snapshot) : ℕ :=
  (if s.gdp_growth_yoy.isSome then 1 else 0) +
  (if s.inflation_rate.isSome then 1 else 0) +
  (if s.manufacturing_pmi.isSome then 1 else 0) +
  (if s.balance_of_trade.isSome then 1 else 0) +
  (if s.fx_reserves.isSome then 1 else 0) +
  (if s.policy_rate.isSome then 1 else 0)

lemma gdpStep_factors_len (f : Option IndicatorEntry) :
    (gdpStep f).2.length ≤ if f.isSome then 1 else 0 := by
  rcases f with _ | ⟨v, c⟩
  · simp [gdpStep]
  · rcases v with _ | x
    · simp [gdpStep]
    · simp only [gdpStep, Option.isSome_some, if_true]
      split_ifs <;> simp

lemma inflationStep_factors_len (f : Option IndicatorEntry) :
    (inflationStep f).2.length ≤ if f.isSome then 1 else 0 := by
  rcases f with _ | ⟨v, c⟩
  · simp [inflationStep]
  · rcases v with _ | x
    · simp [inflationStep]
    · simp only [inflationStep, Option.isSome_some, if_true]
      split_ifs <;> simp

lemma pmiStep_factors_len (f : Option IndicatorEntry) :
    (pmiStep f).2.length ≤ if f.isSome then 1 else 0 := by
  rcases f with _ | ⟨v, c⟩
  · simp [pmiStep]
  · rcases v with _ | x
    · simp [pmiStep]
    · simp only [pmiStep, Option.isSome_some, if_true]
      split_ifs <;> simp

lemma tradeStep_factors_len (f : Option IndicatorEntry) :
    (tradeStep f).2.length ≤ if f.isSome then 1 else 0 := by
  rcases f with _ | ⟨v, c⟩
  · simp [tradeStep]
  · rcases v with _ | x
    · simp [tradeStep]
    · simp only [tradeStep, Option.isSome_some, if_true]
      split_ifs <;> simp

lemma fxStep_factors_len (f : Option IndicatorEntry) :
    (fxStep f).2.length ≤ if f.isSome then 1 else 0 := by
  rcases f with _ | ⟨v, c⟩
  · simp [fxStep]
  · rcases v with _ | x
    · simp [fxStep]
    · simp only [fxStep, Option.isSome_some, if_true]
      split_ifs <;> simp

lemma policyStep_factors_len (f : Option IndicatorEntry) :
    (policyStep f).2.length ≤ if f.isSome then 1 else 0 := by
  rcases f with _ | ⟨v, c⟩
  · simp [policyStep]
  · rcases v with _ | x
    · simp [policyStep]
    · rcases c with _ | y
      · simp [policyStep]
      · simp only [policyStep, Option.isSome_some, if_true]
        split_ifs <;> simp

/-- C6: indicators absent from the snapshot are skipped: the empty snapshot
scores exactly `(50, "Fair", [])`, and the factors list never has more
entries than the snapshot has indicator keys. -/
theorem econ_score_skips_absent_indicators :
    calculate_economic_score emptySnapshot = (50, Rating.fair, []) ∧
    ∀ s : Snapshot, (calculate_economic_score s).2.2.length ≤ presentCount s := by
  constructor
  · norm_num [calculate_economic_score, emptySnapshot, gdpStep, inflationStep,
      pmiStep, tradeStep, fxStep, policyStep, ratingOf]
  · intro s
    show ((gdpStep s.gdp_growth_yoy).2 ++ (inflationStep s.inflation_rate).2
      ++ (pmiStep s.manufacturing_pmi).2 ++ (tradeStep s.balance_of_trade).2
      ++ (fxStep s.fx_reserves).2 ++ (policyStep s.policy_rate).2).length
      ≤ presentCount s
    simp only [List.length_append, presentCount]
    have h1 := gdpStep_factors_len s.gdp_growth_yoy
    have h2 := inflationStep_factors_len s.inflation_rate
    have h3 := pmiStep_factors_len s.manufacturing_pmi
    have h4 := tradeStep_factors_len s.balance_of_trade
    have h5 := fxStep_factors_len s.fx_reserves
    have h6 := policyStep_factors_len s.policy_rate
    exact add_le_add (add_le_add (add_le_add (add_le_add (add_le_add h1 h2) h3) h4) h5) h6

lemma gdpStep_mono (c : Option ℚ) {v w : ℚ} (h : v ≤ w) :
    (gdpStep (some ⟨some v, c⟩)).1 ≤ (gdpStep (some ⟨some w, c⟩)).1 := by
  simp only [gdpStep]
  split_ifs <;> try norm_num
  all_goals (exfalso; linarith)

/-- C7 (amended): the economic score is monotone in `gdp_growth_yoy`:
replacing the GDP value by a larger one, all other fields fixed, never
decreases the score. (It is not monotone in every indicator: see the
inflation counterexample.) -/
theorem econ_score_monotone_in_gdp (s : Snapshot) (c : Option ℚ) {v w : ℚ}
    (h : v ≤ w) :
    (calculate_economic_score { s with gdp_growth_yoy := some ⟨some v, c⟩ }).1 ≤
    (calculate_economic_score { s with gdp_growth_yoy := some ⟨some w, c⟩ }).1 := by
  have hg := gdpStep_mono c h
  show max 0 (min 100 (50 + (gdpStep (some ⟨some v, c⟩)).1
      + (inflationStep s.inflation_rate).1 + (pmiStep s.manufacturing_pmi).1
      + (tradeStep s.balance_of_trade).1 + (fxStep s.fx_reserves).1
      + (policyStep s.policy_rate).1)) ≤
    max 0 (min 100 (50 + (gdpStep (some ⟨some w, c⟩)).1
      + (inflationStep s.inflation_rate).1 + (pmiStep s.manufacturing_pmi).1
      + (tradeStep s.balance_of_trade).1 + (fxStep s.fx_reserves).1
      + (policyStep s.policy_rate).1))
  refine max_le_max le_rfl (min_le_min le_rfl ?_)
  omega

/-- C7 witness: increasing GDP growth from 4.0 to 7.0 never decreases the
score (instance of the monotonicity theorem at the otherwise-empty
snapshot). -/
theorem econ_score_monotone_in_gdp_witness :
    (4 : ℚ) ≤ 7 ∧
    (calculate_economic_score { emptySnapshot with gdp_growth_yoy := some ⟨some 4, none⟩ }).1 ≤
    (calculate_economic_score { emptySnapshot with gdp_growth_yoy := some ⟨some 7, none⟩ }).1 :=
  ⟨by norm_num, econ_score_monotone_in_gdp emptySnapshot none (by norm_num)⟩

/-- C7 counterexample: the score is not monotone in every indicator —
raising inflation from 3 to 5 strictly decreases the score (62 to 55). -/
theorem econ_score_not_monotone_in_inflation :
    (3 : ℚ) ≤ 5 ∧
    (calculate_economic_score ⟨none, some ⟨some 5, none⟩, none, none, none, none⟩).1 <
    (calculate_economic_score ⟨none, some ⟨some 3, none⟩, none, none, none, none⟩).1 := by
  constructor
  · norm_num
  · norm_num [calculate_economic_score, gdpStep, inflationStep, pmiStep,
      tradeStep, fxStep, policyStep]

/-- C8: `get_market_sentiment` is total over `float | missing`: missing maps
to Unknown/neutral, RSI strictly above 70 to Overbought/negative, strictly
below 30 to Oversold/positive, everything in [30,70] (including both
boundaries) to Neutral/neutral — also for out-of-range values like -5 and
150. -/
theorem market_sentiment_total_function :
    get_market_sentiment none = (Sentiment.unknown, Tone.neutral) ∧
    (∀ v : ℚ,
      (get_market_sentiment (some v) = (Sentiment.overbought, Tone.negative) ↔ v > 70) ∧
      (get_market_sentiment (some v) = (Sentiment.oversold, Tone.positive) ↔ v < 30) ∧
      (get_market_sentiment (some v) = (Sentiment.neutral, Tone.neutral) ↔ 30 ≤ v ∧ v ≤ 70)) ∧
    get_market_sentiment (some (-5)) = (Sentiment.oversold, Tone.positive) ∧
    get_market_sentiment (some 0) = (Sentiment.oversold, Tone.positive) ∧
    get_market_sentiment (some 29.9) = (Sentiment.oversold, Tone.positive) ∧
    get_market_sentiment (some 30) = (Sentiment.neutral, Tone.neutral) ∧
    get_market_sentiment (some 70) = (Sentiment.neutral, Tone.neutral) ∧
    get_market_sentiment (some 70.1) = (Sentiment.overbought, Tone.negative) ∧
    get_market_sentiment (some 150) = (Sentiment.overbought, Tone.negative) := by
  refine ⟨rfl, ?_, ?_, ?_, ?_, ?_, ?_, ?_, ?_⟩
  · intro v
    simp only [get_market_sentiment]
    split_ifs with h1 h2
    · refine ⟨by simp [h1], ?_, ?_⟩
      · simp only [Prod.mk.injEq]
        constructor
        · rintro ⟨h, -⟩; cases h
        · intro h; linarith
      · simp only [Prod.mk.injEq]
        constructor
        · rintro ⟨h, -⟩; cases h
        · rintro ⟨-, h⟩; linarith
    · refine ⟨?_, by simp [h2], ?_⟩
      · simp only [Prod.mk.injEq]
        constructor
        · rintro ⟨h, -⟩; cases h
        · intro h; linarith
      · simp only [Prod.mk.injEq]
        constructor
        · rintro ⟨h, -⟩; cases h
        · rintro ⟨h, -⟩; linarith
    · refine ⟨?_, ?_, ?_⟩
      · simp only [Prod.mk.injEq]
        constructor
        · rintro ⟨h, -⟩; cases h
        · intro h; exact absurd h h1
      · simp only [Prod.mk.injEq]
        constructor
        · rintro ⟨h, -⟩; cases h
        · intro h; exact absurd h h2
      · simp only [Prod.mk.injEq, true_and]
        constructor
        · intro _; constructor <;> linarith [not_lt.mp h1, not_lt.mp h2]
        · intro _; trivial
  · norm_num [get_market_sentiment]
  · norm_num [get_market_sentiment]
  · norm_num [get_market_sentiment]
  · norm_num [get_market_sentiment]
  · norm_num [get_market_sentiment]
  · norm_num [get_market_sentiment]
  · norm_num [get_market_sentiment]

lemma ewmFrom_length (a : ℚ) (xs : List ℚ) (acc : ℚ) :
    (ewmFrom a acc xs).length = xs.length := by
  induction xs generalizing acc with
  | nil => rfl
  | cons x xs ih => simp [ewmFrom, ih]

lemma ewmWilder_length (a : ℚ) (xs : List ℚ) :
    (ewmWilder a xs).length = xs.length := by
  cases xs with
  | nil => rfl
  | cons x xs => simp [ewmWilder, ewmFrom_length]

lemma priceDiffs_length : ∀ p : List ℚ, (priceDiffs p).length = p.length - 1
  | [] => rfl
  | [_] => rfl
  | a :: b :: rest => by
    have ih := priceDiffs_length (b :: rest)
    simp only [priceDiffs, List.length_cons] at ih ⊢
    omega

lemma rsi_alpha_nonneg (period : ℕ) : 0 ≤ (1 : ℚ) / period := by positivity

lemma rsi_alpha_le_one (period : ℕ) : (1 : ℚ) / period ≤ 1 := by
  rcases Nat.eq_zero_or_pos period with h | h
  · subst h; norm_num
  · rw [div_le_one (by exact_mod_cast h)]
    exact_mod_cast h

lemma ewmFrom_nonneg {a : ℚ} (h0 : 0 ≤ a) (h1 : a ≤ 1) :
    ∀ (xs : List ℚ) (acc : ℚ), 0 ≤ acc → (∀ x ∈ xs, 0 ≤ x) →
      ∀ y ∈ ewmFrom a acc xs, 0 ≤ y
  | [], _, _, _, _, hy => by simp [ewmFrom] at hy
  | x :: xs, acc, hacc, hxs, y, hy => by
    have hx : 0 ≤ x := hxs x (List.mem_cons_self x xs)
    have hstep : 0 ≤ a * x + (1 - a) * acc :=
      add_nonneg (mul_nonneg h0 hx) (mul_nonneg (by linarith) hacc)
    simp only [ewmFrom, List.mem_cons] at hy
    rcases hy with rfl | hy
    · exact hstep
    · exact ewmFrom_nonneg h0 h1 xs _ hstep
        (fun z hz => hxs z (List.mem_cons_of_mem x hz)) y hy

lemma ewmWilder_nonneg {a : ℚ} (h0 : 0 ≤ a) (h1 : a ≤ 1) (xs : List ℚ)
    (hxs : ∀ x ∈ xs, 0 ≤ x) : ∀ y ∈ ewmWilder a xs, 0 ≤ y := by
  cases xs with
  | nil => intro y hy; simp [ewmWilder] at hy
  | cons x xs =>
    intro y hy
    have hx : 0 ≤ x := hxs x (List.mem_cons_self x xs)
    simp only [ewmWilder, List.mem_cons] at hy
    rcases hy with rfl | hy
    · exact hx
    · exact ewmFrom_nonneg h0 h1 xs x hx
        (fun z hz => hxs z (List.mem_cons_of_mem x hz)) y hy

lemma ewmFrom_eq_zero {a : ℚ} :
    ∀ (xs : List ℚ) (acc : ℚ), acc = 0 → (∀ x ∈ xs, x = 0) →
      ∀ y ∈ ewmFrom a acc xs, y = 0
  | [], _, _, _, _, hy => by simp [ewmFrom] at hy
  | x :: xs, acc, hacc, hxs, y, hy => by
    have hx : x = 0 := hxs x (List.mem_cons_self x xs)
    have hstep : a * x + (1 - a) * acc = 0 := by
      rw [hx, hacc]; ring
    simp only [ewmFrom, List.mem_cons] at hy
    rcases hy with rfl | hy
    · exact hstep
    · exact ewmFrom_eq_zero xs _ hstep
        (fun z hz => hxs z (List.mem_cons_of_mem x hz)) y hy

lemma ewmWilder_eq_zero {a : ℚ} (xs : List ℚ) (hxs : ∀ x ∈ xs, x = 0) :
    ∀ y ∈ ewmWilder a xs, y = 0 := by
  cases xs with
  | nil => intro y hy; simp [ewmWilder] at hy
  | cons x xs =>
    intro y hy
    have hx : x = 0 := hxs x (List.mem_cons_self x xs)
    simp only [ewmWilder, List.mem_cons] at hy
    rcases hy with rfl | hy
    · exact hx
    · exact ewmFrom_eq_zero xs x hx
        (fun z hz => hxs z (List.mem_cons_of_mem x hz)) y hy

lemma ewmFrom_pos {a : ℚ} (h0 : 0 ≤ a) (h1 : a ≤ 1) :
    ∀ (xs : List ℚ) (acc : ℚ), 0 < acc → (∀ x ∈ xs, 0 < x) →
      ∀ y ∈ ewmFrom a acc xs, 0 < y
  | [], _, _, _, _, hy => by simp [ewmFrom] at hy
  | x :: xs, acc, hacc, hxs, y, hy => by
    have hx : 0 < x := hxs x (List.mem_cons_self x xs)
    have hstep : 0 < a * x + (1 - a) * acc := by
      rcases eq_or_lt_of_le h0 with heq | hpos
      · have hrw : a * x + (1 - a) * acc = acc := by rw [← heq]; ring
        rw [hrw]; exact hacc
      · have t1 : 0 < a * x := mul_pos hpos hx
        have t2 : 0 ≤ (1 - a) * acc := mul_nonneg (by linarith) hacc.le
        linarith
    simp only [ewmFrom, List.mem_cons] at hy
    rcases hy with rfl | hy
    · exact hstep
    · exact ewmFrom_pos h0 h1 xs _ hstep
        (fun z hz => hxs z (List.mem_cons_of_mem x hz)) y hy

lemma ewmWilder_pos {a : ℚ} (h0 : 0 ≤ a) (h1 : a ≤ 1) (xs : List ℚ)
    (hxs : ∀ x ∈ xs, 0 < x) : ∀ y ∈ ewmWilder a xs, 0 < y := by
  cases xs with
  | nil => intro y hy; simp [ewmWilder] at hy
  | cons x xs =>
    intro y hy
    have hx : 0 < x := hxs x (List.mem_cons_self x xs)
    simp only [ewmWilder, List.mem_cons] at hy
    rcases hy with rfl | hy
    · exact hx
    · exact ewmFrom_pos h0 h1 xs x hx
        (fun z hz => hxs z (List.mem_cons_of_mem x hz)) y hy

lemma priceDiffs_neg : ∀ {p : List ℚ}, List.Chain' (fun a b => a > b) p →
    ∀ d ∈ priceDiffs p, d < 0
  | [], _, _, hd => by simp [priceDiffs] at hd
  | [_], _, _, hd => by simp [priceDiffs] at hd
  | a :: b :: rest, hc, d, hd => by
    rw [List.chain'_cons] at hc
    simp only [priceDiffs, List.mem_cons] at hd
    rcases hd with rfl | hd
    · have : a > b := hc.1
      linarith
    · exact priceDiffs_neg hc.2 d hd

lemma priceDiffs_nonneg : ∀ {p : List ℚ}, List.Chain' (fun a b => a ≤ b) p →
    ∀ d ∈ priceDiffs p, 0 ≤ d
  | [], _, _, hd => by simp [priceDiffs] at hd
  | [_], _, _, hd => by simp [priceDiffs] at hd
  | a :: b :: rest, hc, d, hd => by
    rw [List.chain'_cons] at hc
    simp only [priceDiffs, List.mem_cons] at hd
    rcases hd with rfl | hd
    · have : a ≤ b := hc.1
      linarith
    · exact priceDiffs_nonneg hc.2 d hd

lemma gainsOf_nonneg (p : List ℚ) : ∀ g ∈ gainsOf p, 0 ≤ g := by
  intro g hg
  simp only [gainsOf, List.mem_map] at hg
  obtain ⟨d, -, rfl⟩ := hg
  exact le_max_right d 0

lemma lossesOf_nonneg (p : List ℚ) : ∀ l ∈ lossesOf p, 0 ≤ l := by
  intro l hl
  simp only [lossesOf, List.mem_map] at hl
  obtain ⟨d, -, rfl⟩ := hl
  exact le_max_right (-d) 0

lemma gainsOf_zero_of_decr {p : List ℚ}
    (h : List.Chain' (fun a b => a > b) p) : ∀ g ∈ gainsOf p, g = 0 := by
  intro g hg
  simp only [gainsOf, List.mem_map] at hg
  obtain ⟨d, hd, rfl⟩ := hg
  exact max_eq_right (priceDiffs_neg h d hd).le

lemma lossesOf_pos_of_decr {p : List ℚ}
    (h : List.Chain' (fun a b => a > b) p) : ∀ l ∈ lossesOf p, 0 < l := by
  intro l hl
  simp only [lossesOf, List.mem_map] at hl
  obtain ⟨d, hd, rfl⟩ := hl
  have hd0 : 0 < -d := neg_pos.mpr (priceDiffs_neg h d hd)
  exact lt_max_of_lt_left hd0

lemma lossesOf_zero_of_incr {p : List ℚ}
    (h : List.Chain' (fun a b => a ≤ b) p) : ∀ l ∈ lossesOf p, l = 0 := by
  intro l hl
  simp only [lossesOf, List.mem_map] at hl
  obtain ⟨d, hd, rfl⟩ := hl
  exact max_eq_right (neg_nonpos.mpr (priceDiffs_nonneg h d hd))

lemma rsiPoint_range {g l : ℚ} (hg : 0 ≤ g) (hl : 0 ≤ l) {r : ℚ}
    (h : rsiPoint g l = some r) : 0 ≤ r ∧ r ≤ 100 := by
  unfold rsiPoint at h
  split_ifs at h with hz
  have h' := Option.some.inj h
  subst h'
  have hrs : 0 ≤ g / l := div_nonneg hg hl
  constructor
  · have hb : 100 / (1 + g / l) ≤ 100 := div_le_self (by norm_num) (by linarith)
    linarith
  · have hb : 0 < 100 / (1 + g / l) := div_pos (by norm_num) (by linarith)
    linarith

lemma rsiPoint_zero_gain {l : ℚ} (hl : l ≠ 0) : rsiPoint 0 l = some 0 := by
  simp [rsiPoint, hl]

lemma zipWith_rsiPoint_range :
    ∀ (gs ls : List ℚ), (∀ g ∈ gs, 0 ≤ g) → (∀ l ∈ ls, 0 ≤ l) →
      ∀ r : ℚ, some r ∈ List.zipWith rsiPoint gs ls → 0 ≤ r ∧ r ≤ 100
  | [], _, _, _, _, h => by simp at h
  | _ :: _, [], _, _, _, h => by simp at h
  | g :: gs, l :: ls, hg, hl, r, h => by
    simp only [List.zipWith_cons_cons, List.mem_cons] at h
    rcases h with h | h
    · exact rsiPoint_range (hg g (List.mem_cons_self g gs))
        (hl l (List.mem_cons_self l ls)) h.symm
    · exact zipWith_rsiPoint_range gs ls
        (fun z hz => hg z (List.mem_cons_of_mem g hz))
        (fun z hz => hl z (List.mem_cons_of_mem l hz)) r h

lemma zipWith_rsiPoint_none :
    ∀ (gs ls : List ℚ), (∀ l ∈ ls, l = 0) →
      ∀ x ∈ List.zipWith rsiPoint gs ls, x = none
  | [], _, _, _, h => by simp at h
  | _ :: _, [], _, _, h => by simp at h
  | g :: gs, l :: ls, hl, x, h => by
    simp only [List.zipWith_cons_cons, List.mem_cons] at h
    rcases h with rfl | h
    · have : l = 0 := hl l (List.mem_cons_self l ls)
      simp [rsiPoint, this]
    · exact zipWith_rsiPoint_none gs ls
        (fun z hz => hl z (List.mem_cons_of_mem l hz)) x h

lemma zipWith_rsiPoint_zero :
    ∀ (gs ls : List ℚ), (∀ g ∈ gs, g = 0) → (∀ l ∈ ls, 0 < l) →
      ∀ x ∈ List.zipWith rsiPoint gs ls, x = some 0
  | [], _, _, _, _, h => by simp at h
  | _ :: _, [], _, _, _, h => by simp at h
  | g :: gs, l :: ls, hg, hl, x, h => by
    simp only [List.zipWith_cons_cons, List.mem_cons] at h
    rcases h with rfl | h
    · have hg0 : g = 0 := hg g (List.mem_cons_self g gs)
      have hl0 : 0 < l := hl l (List.mem_cons_self l ls)
      rw [hg0]
      exact rsiPoint_zero_gain hl0.ne'
    · exact zipWith_rsiPoint_zero gs ls
        (fun z hz => hg z (List.mem_cons_of_mem g hz))
        (fun z hz => hl z (List.mem_cons_of_mem l hz)) x h

lemma zipWith_rsiPoint_get?_none :
    ∀ (gs ls : List ℚ) (i : ℕ), gs.length = ls.length → ls.get? i = some 0 →
      (List.zipWith rsiPoint gs ls).get? i = some none
  | [], [], i, _, h => by simp at h
  | [], _ :: _, _, hlen, _ => by simp at hlen
  | _ :: _, [], _, hlen, _ => by simp at hlen
  | g :: gs, l :: ls, 0, _, h => by
    have : l = 0 := by simpa using h
    simp [rsiPoint, this]
  | g :: gs, l :: ls, i + 1, hlen, h => by
    simp only [List.zipWith_cons_cons, List.get?_cons_succ] at h ⊢
    exact zipWith_rsiPoint_get?_none gs ls i (by simpa using hlen) h

/-- C2 (amended): every defined entry of `calculate_rsi` lies in [0,100];
whenever the smoothed average loss is 0 the RSI is "no value" rather than
infinity; for a strictly decreasing price series every entry from index 1 on
is a defined 0 (so RSI tends to 0); but for a monotonically increasing
price series every entry is "no value" (the average loss is identically 0),
so the RSI does not tend to 100. -/
theorem rsi_range_and_limits (prices : List ℚ) (period : ℕ) :
    (∀ r : ℚ, some r ∈ calculate_rsi prices period → 0 ≤ r ∧ r ≤ 100) ∧
    (∀ i : ℕ, (avgLossSeq prices period).get? i = some 0 →
      (calculate_rsi prices period).get? (i + 1) = some none) ∧
    (List.Chain' (fun a b => a > b) prices →
      ∀ x ∈ (calculate_rsi prices period).drop 1, x = some 0) ∧
    (List.Chain' (fun a b => a ≤ b) prices →
      ∀ x ∈ calculate_rsi prices period, x = none) := by
  have h0 := rsi_alpha_nonneg period
  have h1 := rsi_alpha_le_one period
  refine ⟨?_, ?_, ?_, ?_⟩
  · intro r hr
    cases prices with
    | nil => simp [calculate_rsi] at hr
    | cons p ps =>
      simp only [calculate_rsi, List.mem_cons] at hr
      rcases hr with h | h
      · exact absurd h (by simp)
      · exact zipWith_rsiPoint_range _ _
          (ewmWilder_nonneg h0 h1 _ (gainsOf_nonneg _))
          (ewmWilder_nonneg h0 h1 _ (lossesOf_nonneg _)) r h
  · intro i hi
    cases prices with
    | nil => simp [avgLossSeq, lossesOf, priceDiffs, ewmWilder] at hi
    | cons p ps =>
      show (List.zipWith rsiPoint (avgGainSeq (p :: ps) period)
        (avgLossSeq (p :: ps) period)).get? i = some none
      refine zipWith_rsiPoint_get?_none _ _ i ?_ hi
      simp [avgGainSeq, avgLossSeq, ewmWilder_length, gainsOf, lossesOf]
  · intro hchain x hx
    cases prices with
    | nil => simp [calculate_rsi] at hx
    | cons p ps =>
      simp only [calculate_rsi, List.drop_succ_cons, List.drop_zero] at hx
      exact zipWith_rsiPoint_zero _ _
        (ewmWilder_eq_zero _ (gainsOf_zero_of_decr hchain))
        (ewmWilder_pos h0 h1 _ (lossesOf_pos_of_decr hchain)) x hx
  · intro hchain x hx
    cases prices with
    | nil => simp [calculate_rsi] at hx
    | cons p ps =>
      simp only [calculate_rsi, List.mem_cons] at hx
      rcases hx with rfl | hx
      · rfl
      · exact zipWith_rsiPoint_none _ _
          (ewmWilder_eq_zero _ (lossesOf_zero_of_incr hchain)) x hx

/-- C2 witness: the range bound applied to the concrete decreasing series
[3,2,1] with the default period 14, whose index-1 entry evaluates to a
defined RSI of 0. -/
theorem rsi_range_and_limits_witness : (0 : ℚ) ≤ 0 ∧ (0 : ℚ) ≤ 100 := by
  have h := rsi_range_and_limits [3, 2, 1] 14
  have hmem : some (0 : ℚ) ∈ calculate_rsi [3, 2, 1] 14 := by
    have heq : calculate_rsi [3, 2, 1] 14 = [none, some 0, some 0] := by
      norm_num [calculate_rsi, avgGainSeq, avgLossSeq, gainsOf, lossesOf,
        priceDiffs, ewmWilder, ewmFrom, rsiPoint]
    rw [heq]
    simp
  exact h.1 0 hmem

/-- C2 counterexample: for the strictly increasing 16-sample series 1..16
(longer than the default period 14), every RSI entry computed by
`calculate_rsi` is "no value", so the RSI values do not tend to 100. -/
theorem rsi_increasing_series_all_undefined :
    List.Chain' (fun a b : ℚ => a < b)
      [1, 2, 3, 4, 5, 6, 7, 8, 9, 10, 11, 12, 13, 14, 15, 16] ∧
    calculate_rsi [1, 2, 3, 4, 5, 6, 7, 8, 9, 10, 11, 12, 13, 14, 15, 16] 14 =
      List.replicate 16 none := by
  constructor
  · norm_num [List.chain'_cons, List.chain'_singleton]
  · norm_num [calculate_rsi, avgGainSeq, avgLossSeq, gainsOf, lossesOf,
      priceDiffs, ewmWilder, ewmFrom, rsiPoint, List.replicate]

/-- C3 (amended): `calculate_rsi` returns a sequence of the same length as
its input whose first entry (index 0) is always "no value"; defined values
are not withheld for the first `period` entries — they can appear from
index 1 on. -/
theorem rsi_length_and_first_entry (prices : List ℚ) (period : ℕ) :
    (calculate_rsi prices period).length = prices.length ∧
    (prices ≠ [] → (calculate_rsi prices period).get? 0 = some none) := by
  constructor
  · cases prices with
    | nil => rfl
    | cons p ps =>
      have hg : (avgGainSeq (p :: ps) period).length = (p :: ps).length - 1 := by
        simp [avgGainSeq, ewmWilder_length, gainsOf, priceDiffs_length]
      have hl : (avgLossSeq (p :: ps) period).length = (p :: ps).length - 1 := by
        simp [avgLossSeq, ewmWilder_length, lossesOf, priceDiffs_length]
      simp only [calculate_rsi, List.length_cons, List.length_zipWith, hg, hl]
      simp
  · intro h
    cases prices with
    | nil => exact absurd rfl h
    | cons p ps => rfl

/-- C3 witness: the length/shape statement applied at the concrete series
[10,9,8] with the default period 14. -/
theorem rsi_length_and_first_entry_witness :
    (calculate_rsi [10, 9, 8] 14).length = 3 ∧
    (calculate_rsi [10, 9, 8] 14).get? 0 = some none := by
  have h := rsi_length_and_first_entry [10, 9, 8] 14
  exact ⟨by simpa using h.1, h.2 (by simp)⟩

/-- C3 counterexample: with the default period 14, the three-sample
decreasing series [10,9,8] already carries a defined RSI value (0) at index
1 < 14, refuting "the first P entries are no value". -/
theorem rsi_defined_before_period :
    (1 : ℕ) < 14 ∧ (calculate_rsi [10, 9, 8] 14).get? 1 = some (some 0) := by
  refine ⟨by norm_num, ?_⟩
  norm_num [calculate_rsi, avgGainSeq, avgLossSeq, gainsOf, lossesOf,
    priceDiffs, ewmWilder, ewmFrom, rsiPoint]

lemma round1_int_half (z : ℤ) : round1 ((z : ℚ) / 2) = (z : ℚ) / 2 := by
  unfold round1
  have h : ((z : ℚ) / 2) * 10 = ((5 * z : ℤ) : ℚ) := by push_cast; ring
  rw [h, round_intCast]
  push_cast
  ring

lemma genRec_overall_eq (us : USData) (vne : Snapshot) (vnm : VnMarket)
    (g : GlobalContext) (rt : RiskTolerance) :
    (generate_comprehensive_investment_recommendation us vne vnm g rt).overall_score =
    (((analyze_fed_vietnam_correlation us vnm g).fed_impact_score : ℚ) + 50 +
      ((analyze_vietnam_macro_market_correlation vne vnm).macro_score : ℚ)) / 2 := by
  show round1 ((((analyze_fed_vietnam_correlation us vnm g).fed_impact_score : ℚ) + 50 +
      ((analyze_vietnam_macro_market_correlation vne vnm).macro_score : ℚ)) / 2) = _
  have h : (((analyze_fed_vietnam_correlation us vnm g).fed_impact_score : ℚ) + 50 +
      ((analyze_vietnam_macro_market_correlation vne vnm).macro_score : ℚ)) =
      (((analyze_fed_vietnam_correlation us vnm g).fed_impact_score + 50 +
        (analyze_vietnam_macro_market_correlation vne vnm).macro_score : ℤ) : ℚ) := by
    push_cast
    ring
  rw [h, round1_int_half]

lemma genRec_timing_eq (us : USData) (vne : Snapshot) (vnm : VnMarket)
    (g : GlobalContext) (rt : RiskTolerance) :
    (generate_comprehensive_investment_recommendation us vne vnm g rt).market_timing =
    (if (((analyze_fed_vietnam_correlation us vnm g).fed_impact_score : ℚ) + 50 +
        ((analyze_vietnam_macro_market_correlation vne vnm).macro_score : ℚ)) / 2 > 65 then
      Timing.favorable
     else if (((analyze_fed_vietnam_correlation us vnm g).fed_impact_score : ℚ) + 50 +
        ((analyze_vietnam_macro_market_correlation vne vnm).macro_score : ℚ)) / 2 < 40 then
      Timing.unfavorable
     else Timing.neutral) := rfl

lemma genRec_risk_eq (us : USData) (vne : Snapshot) (vnm : VnMarket)
    (g : GlobalContext) (rt : RiskTolerance) :
    (generate_comprehensive_investment_recommendation us vne vnm g rt).risk_level =
    (if (analyze_fed_vietnam_correlation us vnm g).risk_level = RiskLevel.high ∨
        (analyze_vietnam_macro_market_correlation vne vnm).macro_score < 40 then
      RiskLevel.high
     else if (analyze_fed_vietnam_correlation us vnm g).risk_level = RiskLevel.low ∧
        (analyze_vietnam_macro_market_correlation vne vnm).macro_score > 70 then
      RiskLevel.low
     else RiskLevel.medium) := rfl

/-- C4: in `generate_comprehensive_investment_recommendation` the returned
overall score equals `(fed_impact_score + 50 + macro_score) / 2` for every
input, market timing is Favorable exactly when the overall score exceeds 65,
Unfavorable exactly when it is below 40, and Neutral otherwise; and
`fed_impact_score = 20` with `macro_score = 60` (realised by Fed rate 1% and
inflation-only 3%) gives exactly 65.0 and hence Neutral, not Favorable. -/
theorem overall_score_formula_and_timing :
    (∀ (us : USData) (vne : Snapshot) (vnm : VnMarket) (g : GlobalContext)
      (rt : RiskTolerance),
      (generate_comprehensive_investment_recommendation us vne vnm g rt).overall_score =
        (((analyze_fed_vietnam_correlation us vnm g).fed_impact_score : ℚ) + 50 +
          ((analyze_vietnam_macro_market_correlation vne vnm).macro_score : ℚ)) / 2 ∧
      ((generate_comprehensive_investment_recommendation us vne vnm g rt).market_timing =
          Timing.favorable ↔
        65 < (generate_comprehensive_investment_recommendation us vne vnm g rt).overall_score) ∧
      ((generate_comprehensive_investment_recommendation us vne vnm g rt).market_timing =
          Timing.unfavorable ↔
        (generate_comprehensive_investment_recommendation us vne vnm g rt).overall_score < 40) ∧
      ((generate_comprehensive_investment_recommendation us vne vnm g rt).market_timing =
          Timing.neutral ↔
        (40 ≤ (generate_comprehensive_investment_recommendation us vne vnm g rt).overall_score ∧
         (generate_comprehensive_investment_recommendation us vne vnm g rt).overall_score ≤ 65))) ∧
    (generate_comprehensive_investment_recommendation ⟨some ⟨1, none⟩, none⟩
        ⟨none, some ⟨some 3, none⟩, none, none, none, none⟩ ⟨none, none⟩ ⟨none, none⟩
        RiskTolerance.moderate).overall_score = 65 ∧
    (generate_comprehensive_investment_recommendation ⟨some ⟨1, none⟩, none⟩
        ⟨none, some ⟨some 3, none⟩, none, none, none, none⟩ ⟨none, none⟩ ⟨none, none⟩
        RiskTolerance.moderate).market_timing = Timing.neutral := by
  refine ⟨?_, ?_, ?_⟩
  · intro us vne vnm g rt
    refine ⟨genRec_overall_eq us vne vnm g rt, ?_, ?_, ?_⟩
    · rw [genRec_timing_eq us vne vnm g rt, genRec_overall_eq us vne vnm g rt]
      split_ifs with h1 h2
      · exact iff_of_true rfl h1
      · exact iff_of_false (by simp) h1
      · exact iff_of_false (by simp) h1
    · rw [genRec_timing_eq us vne vnm g rt, genRec_overall_eq us vne vnm g rt]
      split_ifs with h1 h2
      · exact iff_of_false (by simp) (by intro hc; linarith)
      · exact iff_of_true rfl h2
      · exact iff_of_false (by simp) h2
    · rw [genRec_timing_eq us vne vnm g rt, genRec_overall_eq us vne vnm g rt]
      split_ifs with h1 h2
      · exact iff_of_false (by simp) (by rintro ⟨-, hb⟩; linarith)
      · exact iff_of_false (by simp) (by rintro ⟨ha, -⟩; linarith)
      · exact iff_of_true rfl ⟨not_lt.mp h2, not_lt.mp h1⟩
  · rw [genRec_overall_eq]
    norm_num [analyze_fed_vietnam_correlation, fedRateStep, usInflationStep,
      dxyStep, vnRsiStep, fedFinalize, analyze_vietnam_macro_market_correlation,
      macroGdpStep, macroInflationStep, macroPmiStep, macroTradeStep,
      macroPolicyStep, macroImplications]
  · rw [genRec_timing_eq]
    norm_num [analyze_fed_vietnam_correlation, fedRateStep, usInflationStep,
      dxyStep, vnRsiStep, fedFinalize, analyze_vietnam_macro_market_correlation,
      macroGdpStep, macroInflationStep, macroPmiStep, macroTradeStep,
      macroPolicyStep, macroImplications]

/-- C5: the returned risk level of
`generate_comprehensive_investment_recommendation` follows the 2-input
decision table — High iff the Fed-impact risk level is High or the macro
score is below 40; Low iff the Fed-impact risk level is Low and the macro
score exceeds 70; Medium otherwise. Fed risk High with macro score 80 still
yields High, and Fed risk Low with macro score 71 yields Low. -/
theorem recommendation_risk_table :
    (∀ (us : USData) (vne : Snapshot) (vnm : VnMarket) (g : GlobalContext)
      (rt : RiskTolerance),
      ((generate_comprehensive_investment_recommendation us vne vnm g rt).risk_level =
          RiskLevel.high ↔
        ((analyze_fed_vietnam_correlation us vnm g).risk_level = RiskLevel.high ∨
          (analyze_vietnam_macro_market_correlation vne vnm).macro_score < 40)) ∧
      ((generate_comprehensive_investment_recommendation us vne vnm g rt).risk_level =
          RiskLevel.low ↔
        ((analyze_fed_vietnam_correlation us vnm g).risk_level = RiskLevel.low ∧
          (analyze_vietnam_macro_market_correlation vne vnm).macro_score > 70)) ∧
      ((generate_comprehensive_investment_recommendation us vne vnm g rt).risk_level =
          RiskLevel.medium ↔
        (¬((analyze_fed_vietnam_correlation us vnm g).risk_level = RiskLevel.high ∨
            (analyze_vietnam_macro_market_correlation vne vnm).macro_score < 40) ∧
         ¬((analyze_fed_vietnam_correlation us vnm g).risk_level = RiskLevel.low ∧
            (analyze_vietnam_macro_market_correlation vne vnm).macro_score > 70)))) ∧
    ((analyze_fed_vietnam_correlation ⟨some ⟨6, none⟩, none⟩ ⟨none, none⟩
        ⟨none, none⟩).risk_level = RiskLevel.high ∧
     (analyze_vietnam_macro_market_correlation
        ⟨none, none, some ⟨some 53, none⟩, some ⟨some 3, none⟩, none,
         some ⟨some 4, some (-0.5)⟩⟩ ⟨none, none⟩).macro_score = 80 ∧
     (generate_comprehensive_investment_recommendation ⟨some ⟨6, none⟩, none⟩
        ⟨none, none, some ⟨some 53, none⟩, some ⟨some 3, none⟩, none,
         some ⟨some 4, some (-0.5)⟩⟩ ⟨none, none⟩ ⟨none, none⟩
        RiskTolerance.conservative).risk_level = RiskLevel.high) ∧
    ((analyze_fed_vietnam_correlation ⟨some ⟨1, none⟩, some 2⟩ ⟨none, none⟩
        ⟨none, none⟩).risk_level = RiskLevel.low ∧
     (analyze_vietnam_macro_market_correlation
        ⟨some ⟨some 7, none⟩, some ⟨some 3, none⟩, some ⟨some 49, none⟩,
         some ⟨some 3, none⟩, none, none⟩ ⟨none, none⟩).macro_score = 71 ∧
     (generate_comprehensive_investment_recommendation ⟨some ⟨1, none⟩, some 2⟩
        ⟨some ⟨some 7, none⟩, some ⟨some 3, none⟩, some ⟨some 49, none⟩,
         some ⟨some 3, none⟩, none, none⟩ ⟨none, none⟩ ⟨none, none⟩
        RiskTolerance.conservative).risk_level = RiskLevel.low) := by
  refine ⟨?_, ⟨?_, ?_, ?_⟩, ⟨?_, ?_, ?_⟩⟩
  · intro us vne vnm g rt
    refine ⟨?_, ?_, ?_⟩
    · rw [genRec_risk_eq us vne vnm g rt]
      split_ifs with h1 h2
      · exact iff_of_true rfl h1
      · exact iff_of_false (by simp) h1
      · exact iff_of_false (by simp) h1
    · rw [genRec_risk_eq us vne vnm g rt]
      split_ifs with h1 h2
      · refine iff_of_false (by simp) ?_
        rintro ⟨hl, hm⟩
        rcases h1 with hh | hm40
        · rw [hl] at hh
          exact RiskLevel.noConfusion hh
        · linarith
      · exact iff_of_true rfl h2
      · exact iff_of_false (by simp) h2
    · rw [genRec_risk_eq us vne vnm g rt]
      split_ifs with h1 h2
      · exact iff_of_false (by simp) (fun hc => hc.1 h1)
      · exact iff_of_false (by simp) (fun hc => hc.2 h2)
      · exact iff_of_true rfl ⟨h1, h2⟩
  · norm_num [analyze_fed_vietnam_correlation, fedRateStep, usInflationStep,
      dxyStep, vnRsiStep, fedFinalize]
  · norm_num [analyze_vietnam_macro_market_correlation, macroGdpStep,
      macroInflationStep, macroPmiStep, macroTradeStep, macroPolicyStep,
      macroImplications]
  · rw [genRec_risk_eq]
    norm_num [analyze_fed_vietnam_correlation, fedRateStep, usInflationStep,
      dxyStep, vnRsiStep, fedFinalize, analyze_vietnam_macro_market_correlation,
      macroGdpStep, macroInflationStep, macroPmiStep, macroTradeStep,
      macroPolicyStep, macroImplications]
  · norm_num [analyze_fed_vietnam_correlation, fedRateStep, usInflationStep,
      dxyStep, vnRsiStep, fedFinalize]
  · norm_num [analyze_vietnam_macro_market_correlation, macroGdpStep,
      macroInflationStep, macroPmiStep, macroTradeStep, macroPolicyStep,
      macroImplications]
  · rw [genRec_risk_eq]
    norm_num [analyze_fed_vietnam_correlation, fedRateStep, usInflationStep,
      dxyStep, vnRsiStep, fedFinalize, analyze_vietnam_macro_market_correlation,
      macroGdpStep, macroInflationStep, macroPmiStep, macroTradeStep,
      macroPolicyStep, macroImplications]
    decide

/-- C9 counterexample: the two macro scorers are not extensionally equal —
on the snapshot holding only `inflation_rate = 3` the correlation
heuristic's `macro_score` (60) differs from the Economic Scoring Engine's
score (62). -/
theorem macro_and_econ_scores_differ :
    (analyze_vietnam_macro_market_correlation
      ⟨none, some ⟨some 3, none⟩, none, none, none, none⟩ ⟨none, none⟩).macro_score ≠
    (calculate_economic_score
      ⟨none, some ⟨some 3, none⟩, none, none, none, none⟩).1 := by
  norm_num [analyze_vietnam_macro_market_correlation, macroGdpStep,
    macroInflationStep, macroPmiStep, macroTradeStep, macroPolicyStep,
    macroImplications, calculate_economic_score, gdpStep, inflationStep,
    pmiStep, tradeStep, fxStep, policyStep]

/-- C9 (corrected): the two macro scoring implementations agree on the empty
snapshot (both return the neutral base 50) but are not extensionally equal:
their rule tables drift (e.g. healthy inflation is +10 in the correlation
heuristic but +12 in the scoring engine), so with only `inflation_rate = 3`
they return 60 and 62 respectively. -/
theorem macro_econ_agreement_and_drift :
    (analyze_vietnam_macro_market_correlation emptySnapshot ⟨none, none⟩).macro_score = 50 ∧
    (calculate_economic_score emptySnapshot).1 = 50 ∧
    (analyze_vietnam_macro_market_correlation
      ⟨none, some ⟨some 3, none⟩, none, none, none, none⟩ ⟨none, none⟩).macro_score = 60 ∧
    (calculate_economic_score ⟨none, some ⟨some 3, none⟩, none, none, none, none⟩).1 = 62 := by
  refine ⟨?_, ?_, ?_, ?_⟩ <;>
    norm_num [analyze_vietnam_macro_market_correlation, macroGdpStep,
      macroInflationStep, macroPmiStep, macroTradeStep, macroPolicyStep,
      macroImplications, calculate_economic_score, gdpStep, inflationStep,
      pmiStep, tradeStep, fxStep, policyStep, emptySnapshot]

lemma macroGdpStep_zero (c : Option ℚ) (a : MacroAnalysis) :
    macroGdpStep (some ⟨some 0, c⟩) a = a := by
  simp [macroGdpStep]

lemma macroInflationStep_zero (c : Option ℚ) (a : MacroAnalysis) :
    macroInflationStep (some ⟨some 0, c⟩) a = a := by
  simp [macroInflationStep]

lemma macroTradeStep_zero (c : Option ℚ) (a : MacroAnalysis) :
    macroTradeStep (some ⟨some 0, c⟩) a = a := by
  simp [macroTradeStep]

lemma vnRsiStep_zero (nm : String) (st : ℤ × List String × RiskLevel) :
    vnRsiStep (some ⟨nm, some 0⟩) st = st := by
  simp [vnRsiStep]

/-- C10: because of truthiness guards, a field whose value is exactly 0 is
treated like an absent field: in `analyze_vietnam_macro_market_correlation`
a `gdp_growth_yoy`, `inflation_rate` or `balance_of_trade` value of 0
contributes no score delta and no driver string (the whole analysis equals
the one with the field absent), and in `analyze_fed_vietnam_correlation` a
VN-Index RSI of 0 adds no oversold bonus even though 0 < 35. -/
theorem zero_value_treated_as_missing :
    (∀ (s : Snapshot) (vm : VnMarket) (c : Option ℚ),
      analyze_vietnam_macro_market_correlation
        { s with gdp_growth_yoy := some ⟨some 0, c⟩ } vm =
      analyze_vietnam_macro_market_correlation
        { s with gdp_growth_yoy := none } vm) ∧
    (∀ (s : Snapshot) (vm : VnMarket) (c : Option ℚ),
      analyze_vietnam_macro_market_correlation
        { s with inflation_rate := some ⟨some 0, c⟩ } vm =
      analyze_vietnam_macro_market_correlation
        { s with inflation_rate := none } vm) ∧
    (∀ (s : Snapshot) (vm : VnMarket) (c : Option ℚ),
      analyze_vietnam_macro_market_correlation
        { s with balance_of_trade := some ⟨some 0, c⟩ } vm =
      analyze_vietnam_macro_market_correlation
        { s with balance_of_trade := none } vm) ∧
    (∀ (us : USData) (g : GlobalContext) (nm : String) (ad : Option ℚ),
      analyze_fed_vietnam_correlation us ⟨some ⟨nm, some 0⟩, ad⟩ g =
      analyze_fed_vietnam_correlation us ⟨none, ad⟩ g) := by
  refine ⟨?_, ?_, ?_, ?_⟩
  · intro s vm c
    show macroImplications
      (macroPolicyStep s.policy_rate
        (macroTradeStep s.balance_of_trade
          (macroPmiStep s.manufacturing_pmi
            (macroInflationStep s.inflation_rate
              (macroGdpStep (some ⟨some 0, c⟩)
                ⟨50, [], [], none, none, none, none, none, none⟩))))) = _
    rw [macroGdpStep_zero]
    rfl
  · intro s vm c
    show macroImplications
      (macroPolicyStep s.policy_rate
        (macroTradeStep s.balance_of_trade
          (macroPmiStep s.manufacturing_pmi
            (macroInflationStep (some ⟨some 0, c⟩)
              (macroGdpStep s.gdp_growth_yoy
                ⟨50, [], [], none, none, none, none, none, none⟩))))) = _
    rw [macroInflationStep_zero]
    rfl
  · intro s vm c
    show macroImplications
      (macroPolicyStep s.policy_rate
        (macroTradeStep (some ⟨some 0, c⟩)
          (macroPmiStep s.manufacturing_pmi
            (macroInflationStep s.inflation_rate
              (macroGdpStep s.gdp_growth_yoy
                ⟨50, [], [], none, none, none, none, none, none⟩))))) = _
    rw [macroTradeStep_zero]
    rfl
  · intro us g nm ad
    show fedFinalize
      (vnRsiStep (some ⟨nm, some 0⟩)
        (dxyStep g.dxy_change
          (usInflationStep us.inflation
            (fedRateStep us.fed_rate (0, [], RiskLevel.medium))))) = _
    rw [vnRsiStep_zero]
    rfl
